import Mathlib

/-!
Shallow embedding of `jobsd` (`src/job.go`): the typed job-handler binding
and invocation layer of a persisted job-scheduling system.

The Go source manipulates runtime values through `reflect`; here a runtime
value is a `GoValue` with a `Kind`, a reflected callable is a `ReflectValue`
(either a function with a signature and a dynamic behaviour, or a
non-function value), errors created by `errors.New` are `GoErr.newErr`,
and a Go panic escaping a call is the `Except.error` branch of a
computation in `Except GoPanic _`.
-/

namespace Jobsd

/-- Reflection kinds (the subset of `reflect.Kind` the claims need). -/
inductive Kind where
  | int
  | string
  | bool
  | float64
  | ptr
  | chan
  | func
  | invalid
deriving DecidableEq, Repr

/-- A Go error value: either one built by `errors.New` with a message, or an
arbitrary caller-supplied error value distinguished by an id. -/
inductive GoErr where
  | newErr (msg : String)
  | custom (id : Nat)
deriving DecidableEq, Repr

/-- A Go runtime value as stored in an `interface{}` slot. `vStr` carries the
byte sequence of a Go string. `vErr` is a value of a concrete error type
(`none` is the nil error interface). `vOpaque k` stands for any other value
whose reflection kind is `k` (e.g. a channel), which gob cannot encode. -/
inductive GoValue where
  | vInt (n : Int)
  | vStr (s : List Nat)
  | vBool (b : Bool)
  | vErr (e : Option GoErr)
  | vOpaque (k : Kind)
deriving DecidableEq, Repr

/-- `reflect.ValueOf(v).Kind()`. A non-nil concrete error is a pointer
(`*errors.errorString`); the nil interface reflects to the invalid kind. -/
def kindOf : GoValue → Kind
  | .vInt _ => .int
  | .vStr _ => .string
  | .vBool _ => .bool
  | .vErr (some _) => .ptr
  | .vErr none => .invalid
  | .vOpaque k => k

/-- A Go type as seen by `reflect.Type`: its kind and whether it implements
the `error` interface. -/
structure GoType where
  kind : Kind
  implementsErrorI : Bool
deriving DecidableEq, Repr

/-- The reflected signature of a function: its `In` types and `Out` types. -/
structure FuncSig where
  inTypes : List GoType
  outTypes : List GoType

/-- A panic raised while executing: by the reflection machinery
(`reflect.Value.Call`, `reflect.Type.NumIn`) or by the caller's own code. -/
inductive GoPanic where
  | callOnNonFunc
  | callArityMismatch
  | callArgKindMismatch
  | numInOnNonFunc
  | userPanic (id : Nat)
deriving DecidableEq, Repr

/-- A `reflect.Value`: either a function value, with its signature and its
dynamic behaviour when called (which may itself panic), or any other value. -/
inductive ReflectValue where
  | func (sig : FuncSig) (impl : List GoValue → Except GoPanic (List GoValue))
  | nonFunc (v : GoValue)

/-- `reflect.Value.Call`: panics on a non-function, on an argument count
mismatch, or on an argument whose kind does not fit the parameter type;
otherwise runs the function body. -/
def callValue : ReflectValue → List GoValue → Except GoPanic (List GoValue)
  | .nonFunc _, _ => .error .callOnNonFunc
  | .func sig impl, args =>
    if args.length ≠ sig.inTypes.length then .error .callArityMismatch
    else if (args.zip sig.inTypes).all (fun p => kindOf p.fst == p.snd.kind) then impl args
    else .error .callArgKindMismatch

/-- `JobFunc` wraps the reflected value of the bound callable
(`jobFunc reflect.Value` in the source). -/
structure JobFunc where
  jobFunc : ReflectValue

/-- `NewJobFunc`: wraps a value as the bound callable. -/
def NewJobFunc (theFunc : ReflectValue) : JobFunc :=
  ⟨theFunc⟩

/-- `JobFunc.check` from the source: returns an error if the bound value is
not a function, does not return exactly one value, the return type does not
implement `error`, the argument count differs from the parameter count, or
some argument's kind differs from the corresponding parameter's kind. -/
def JobFunc.check (j : JobFunc) (args : List GoValue) : Option GoErr :=
  match j.jobFunc with
  | .nonFunc _ => some (GoErr.newErr "jobFunc is not a function")
  | .func sig _ =>
    match sig.outTypes with
    | [out0] =>
      if !out0.implementsErrorI then
        some (GoErr.newErr "jobFunc return type needs to be an error")
      else if sig.inTypes.length ≠ args.length then
        some (GoErr.newErr "the number of args do not match the jobs args")
      else if (args.zip sig.inTypes).any (fun p => kindOf p.fst != p.snd.kind) then
        some (GoErr.newErr "the arg(s) types do not match job args types")
      else
        none
    | _ => some (GoErr.newErr "jobFunc needs to return one error")

/-- `JobFunc.paramsCount`: `j.jobFunc.Type().NumIn()`, which panics when the
bound value is not a function. -/
def JobFunc.paramsCount (j : JobFunc) : Except GoPanic Nat :=
  match j.jobFunc with
  | .nonFunc _ => .error .numInOnNonFunc
  | .func sig _ => .ok sig.inTypes.length

/-- `JobFunc.execute` from the source: checks arity only, then calls the
bound callable via reflection (panics propagate, there is no recover),
checks that exactly one value came back, and returns that value if it is a
non-nil error, `nil` otherwise. -/
def JobFunc.execute (j : JobFunc) (params : List GoValue) : Except GoPanic (Option GoErr) :=
  match j.paramsCount with
  | .error p => .error p
  | .ok n =>
    if n ≠ params.length then .ok (some (GoErr.newErr "func parameters mismatch"))
    else
      match callValue j.jobFunc params with
      | .error p => .error p
      | .ok res =>
        if res.length ≠ 1 then .ok (some (GoErr.newErr "func does not return a value"))
        else
          match res with
          | [GoValue.vErr (some e)] => .ok (some e)
          | _ => .ok none

/-- `JobContainer` from the source: a job descriptor owning a handler
binding and the retry policy fields. `time.Duration` and `int` are 64-bit
integers that the setters only store, never compute with, so they are
embedded as `Int`. -/
structure JobContainer where
  jobFunc : JobFunc
  retryTimeout : Int
  retryOnErrorLimit : Int
  retryOnTimeoutLimit : Int

/-- `JobContainer.RetryTimeout`: sets the retry timeout and returns the
descriptor (the Go method mutates through the receiver pointer and returns
it; here the returned record is the mutated state). -/
def JobContainer.RetryTimeout (j : JobContainer) (timeout : Int) : JobContainer :=
  { j with retryTimeout := timeout }

/-- `JobContainer.RetryErrorLimit`: sets the retry-on-error limit and
returns the descriptor. -/
def JobContainer.RetryErrorLimit (j : JobContainer) (limit : Int) : JobContainer :=
  { j with retryOnErrorLimit := limit }

/-- `JobContainer.RetryTimeoutLimit`: sets the retry-on-timeout limit and
returns the descriptor. -/
def JobContainer.RetryTimeoutLimit (j : JobContainer) (limit : Int) : JobContainer :=
  { j with retryOnTimeoutLimit := limit }

/-- `Args` from the source: `[]interface{}`, the ordered parameters of one
job invocation. -/
abbrev Args : Type := List GoValue

/-- A `database/sql/driver` value as passed to `Args.Scan` / returned by
`Args.Value`: SQL NULL (`nil`), a Go string (a byte sequence), or a value
of any other dynamic type. -/
inductive SQLValue where
  | null
  | str (bs : List Nat)
  | other
deriving DecidableEq, Repr

/-- `Args.GormDataType` from the source: the `schema.String` column type. -/
def Args.GormDataType : String :=
  "string"

/-- The kinds of value the gob encoding can round-trip (numeric, string,
boolean); errors, channels, functions and other opaque values are not
registered with the encoder and cannot be encoded. -/
def supported : GoValue → Bool
  | .vInt _ => true
  | .vStr _ => true
  | .vBool _ => true
  | _ => false

/-- Modelled from the spec: `encoding/gob` is external library code, so its
encoding of a single value is modelled as a self-delimiting byte sequence —
a tag byte, then for an int its sign and magnitude, for a string its length
and bytes, for a bool one byte — and `none` for a value the encoder cannot
encode (unregistered / unsupported kind). -/
def gobEncodeVal : GoValue → Option (List Nat)
  | .vInt n => some [0, if n < 0 then 1 else 0, n.natAbs]
  | .vStr s => some (1 :: s.length :: s)
  | .vBool b => some [2, if b then 1 else 0]
  | _ => none

/-- Modelled from the spec: the gob encoder writes element encodings to the
buffer in order and stops at the first unencodable element, reporting
failure; the bytes already written stay in the buffer. Returns the buffer
contents and whether encoding succeeded. -/
def gobEncodeBody : List GoValue → List Nat × Bool
  | [] => ([], true)
  | v :: vs =>
    match gobEncodeVal v with
    | none => ([], false)
    | some bs =>
      let r := gobEncodeBody vs
      (bs ++ r.fst, r.snd)

/-- Modelled from the spec: the gob encoding of the whole `Args` slice is
its element count followed by the element encodings. -/
def gobEncodeArgs (p : Args) : List Nat × Bool :=
  let body := gobEncodeBody p
  (List.length p :: body.fst, body.snd)

/-- Modelled from the spec: decoder for one encoded value; fails on a
malformed prefix, otherwise returns the value and the remaining bytes. -/
def gobDecodeVal : List Nat → Option (GoValue × List Nat)
  | 0 :: sgn :: mag :: rest =>
    if sgn = 0 then some (.vInt (mag : Int), rest)
    else if sgn = 1 then some (.vInt (-(mag : Int)), rest)
    else none
  | 1 :: len :: rest =>
    if len ≤ rest.length then some (.vStr (rest.take len), rest.drop len)
    else none
  | 2 :: b :: rest =>
    if b = 0 then some (.vBool false, rest)
    else if b = 1 then some (.vBool true, rest)
    else none
  | _ => none

/-- Modelled from the spec: decoder for a run of `k` encoded values. -/
def gobDecodeVals : Nat → List Nat → Option (List GoValue × List Nat)
  | 0, bs => some ([], bs)
  | k + 1, bs =>
    match gobDecodeVal bs with
    | none => none
    | some (v, rest) =>
      match gobDecodeVals k rest with
      | none => none
      | some (vs, rest2) => some (v :: vs, rest2)

/-- Modelled from the spec: `gob.Decoder.Decode` into an `Args`. Decoding
empty input fails (EOF); otherwise the element count is read and that many
values are decoded. -/
def gobDecodeArgs : List Nat → Except GoErr Args
  | [] => .error (GoErr.newErr "EOF")
  | n :: rest =>
    match gobDecodeVals n rest with
    | some (vs, _) => .ok vs
    | none => .error (GoErr.newErr "gob: decode failure")

/-- `Args.Value` from the source: an empty list yields the SQL NULL marker;
otherwise the gob encoding of the list is returned as a string. The gob
encoder's error return is discarded (`enc.Encode(p)` with no check), so the
error component is always `nil`. -/
def Args.Value (p : Args) : SQLValue × Option GoErr :=
  if List.length p = 0 then (SQLValue.null, none)
  else
    let enc := gobEncodeArgs p
    (SQLValue.str enc.fst, none)

/-- `Args.Scan` from the source: the stored value must be a string (the
type assertion `value.(string)` fails on NULL and on any other type), and
its bytes are gob-decoded into the argument list. -/
def Args.Scan (value : SQLValue) : Except GoErr Args :=
  match value with
  | SQLValue.str bs => gobDecodeArgs bs
  | _ => .error (GoErr.newErr "failed to unmarshal params value")

/-- Decode after encode through the persistence boundary: `Args.Scan`
applied to the driver value produced by `Args.Value`. -/
def roundTrip (p : Args) : Except GoErr Args :=
  Args.Scan (Args.Value p).fst

/-! ### Round-trip lemmas for the modelled gob encoding -/

theorem gobEncodeVal_isSome_of_supported (v : GoValue) (h : supported v = true) :
    ∃ bs, gobEncodeVal v = some bs := by
  cases v <;> simp [supported, gobEncodeVal] at h ⊢

theorem gobDecodeVal_gobEncodeVal (v : GoValue) (bs rest : List Nat)
    (h : gobEncodeVal v = some bs) :
    gobDecodeVal (bs ++ rest) = some (v, rest) := by
  cases v with
  | vInt n =>
    simp only [gobEncodeVal, Option.some.injEq] at h
    subst h
    by_cases hn : n < 0
    · simp [gobDecodeVal, hn, abs_of_neg hn]
    · have hm : ((n.natAbs : Int)) = n := by omega
      simp [gobDecodeVal, hn, hm]
  | vStr s =>
    simp only [gobEncodeVal, Option.some.injEq] at h
    subst h
    simp [gobDecodeVal, List.take_left, List.drop_left]
  | vBool b =>
    simp only [gobEncodeVal, Option.some.injEq] at h
    subst h
    cases b <;> simp [gobDecodeVal]
  | vErr e => simp [gobEncodeVal] at h
  | vOpaque k => simp [gobEncodeVal] at h

theorem gobEncodeBody_snd (l : List GoValue) (h : ∀ v ∈ l, supported v = true) :
    (gobEncodeBody l).snd = true := by
  induction l with
  | nil => simp [gobEncodeBody]
  | cons v vs ih =>
    obtain ⟨bs, hbs⟩ := gobEncodeVal_isSome_of_supported v (h v (by simp))
    simp only [gobEncodeBody, hbs]
    exact ih (fun w hw => h w (by simp [hw]))

theorem gobDecodeVals_gobEncodeBody (l : List GoValue) (rest : List Nat)
    (h : ∀ v ∈ l, supported v = true) :
    gobDecodeVals (List.length l) ((gobEncodeBody l).fst ++ rest) = some (l, rest) := by
  induction l generalizing rest with
  | nil => simp [gobEncodeBody, gobDecodeVals]
  | cons v vs ih =>
    obtain ⟨bs, hbs⟩ := gobEncodeVal_isSome_of_supported v (h v (by simp))
    have h1 := gobDecodeVal_gobEncodeVal v bs ((gobEncodeBody vs).fst ++ rest) hbs
    have h2 := ih rest (fun w hw => h w (by simp [hw]))
    simp [gobEncodeBody, hbs, gobDecodeVals, List.append_assoc, h1, h2]

/-! ### Claims about the Argument List serialization (C1, C2, C10) -/

/-- C1 (counterexample): the round-trip law fails at the empty Argument
List, whose element kinds are vacuously within the supported set —
`Args.Value` returns the SQL NULL marker and `Args.Scan` rejects NULL
(the type assertion to string fails), so decoding the encoding of `[]`
is an error, not `[]`. -/
theorem claim_C1_counterexample :
    roundTrip ([] : Args) = Except.error (GoErr.newErr "failed to unmarshal params value") ∧
      roundTrip ([] : Args) ≠ Except.ok ([] : Args) := by
  constructor
  · rfl
  · intro h
    rw [show roundTrip ([] : Args) =
        Except.error (GoErr.newErr "failed to unmarshal params value") from rfl] at h
    exact Except.noConfusion h

/-- C1 (amended): for every NON-EMPTY Argument List whose element kinds are
within the supported set, decoding the encoding (`Args.Scan` applied to the
value produced by `Args.Value`) yields the same Argument List,
element-for-element and order-preserved. -/
theorem claim_C1 (p : Args) (hne : p ≠ ([] : Args))
    (hsup : ∀ v ∈ p, supported v = true) :
    roundTrip p = Except.ok p := by
  have hlen : List.length p ≠ 0 := by
    intro h0
    exact hne (List.length_eq_zero.mp h0)
  unfold roundTrip Args.Value
  simp only [hlen, if_false]
  unfold Args.Scan gobEncodeArgs gobDecodeArgs
  have hdec := gobDecodeVals_gobEncodeBody p [] hsup
  rw [List.append_nil] at hdec
  simp [hdec]

/-- C1 (witness): the amended round-trip law at the concrete list
`[3, "x", true]`. -/
theorem claim_C1_witness :
    roundTrip [GoValue.vInt 3, GoValue.vStr [120], GoValue.vBool true] =
      Except.ok [GoValue.vInt 3, GoValue.vStr [120], GoValue.vBool true] :=
  claim_C1 [GoValue.vInt 3, GoValue.vStr [120], GoValue.vBool true]
    (by decide) (by decide)

/-- C2 (counterexample): encoding the empty Argument List yields the SQL
NULL marker (no error), but decoding that result with `Args.Scan` produces
an error — not an empty Argument List — because NULL fails the string type
assertion. -/
theorem claim_C2_counterexample :
    Args.Value ([] : Args) = (SQLValue.null, none) ∧
      Args.Scan (Args.Value ([] : Args)).fst =
        Except.error (GoErr.newErr "failed to unmarshal params value") := by
  constructor <;> rfl

/-- C2 (amended): `Args.Value` on a zero-length `Args` yields the explicit
no-value marker (SQL NULL) with a nil error, and `Args.Scan` applied to
that marker returns an error rather than an empty Argument List: the empty
list does not survive the encode/decode round trip. -/
theorem claim_C2 :
    Args.Value ([] : Args) = (SQLValue.null, none) ∧
      roundTrip ([] : Args) =
        Except.error (GoErr.newErr "failed to unmarshal params value") := by
  constructor <;> rfl

/-- C10: `Args.Value` never returns a non-nil error: the gob encoder's
error is discarded for every list, and every non-empty list — including one
holding a value the encoder cannot encode — yields the (possibly partial)
buffer contents as a string with a nil error. -/
theorem claim_C10 (p : Args) :
    (Args.Value p).snd = none ∧
      (p ≠ ([] : Args) → (Args.Value p).fst = SQLValue.str (gobEncodeArgs p).fst) := by
  constructor
  · unfold Args.Value
    split <;> rfl
  · intro hne
    have hlen : List.length p ≠ 0 := by
      intro h0
      exact hne (List.length_eq_zero.mp h0)
    unfold Args.Value
    simp [hlen]

/-- C10 (witness): at the concrete list holding a channel value — which gob
cannot encode — `Args.Value` still returns a string with a nil error. -/
theorem claim_C10_witness :
    (Args.Value [GoValue.vOpaque Kind.chan]).snd = none ∧
      (Args.Value [GoValue.vOpaque Kind.chan]).fst =
        SQLValue.str (gobEncodeArgs [GoValue.vOpaque Kind.chan]).fst :=
  ⟨(claim_C10 [GoValue.vOpaque Kind.chan]).1,
    (claim_C10 [GoValue.vOpaque Kind.chan]).2 (by decide)⟩

/-! ### Claims about the handler binding (C3 — C7, C9) -/

/-- C3: for a bound callable that is a function with exactly one
error-implementing return value, `check` fails if and only if the argument
count differs from the declared parameter count or some argument's runtime
kind differs from the corresponding declared parameter's kind. -/
theorem claim_C3 (sig : FuncSig) (impl : List GoValue → Except GoPanic (List GoValue))
    (out0 : GoType) (hout : sig.outTypes = [out0]) (herr : out0.implementsErrorI = true)
    (args : List GoValue) :
    (JobFunc.check ⟨ReflectValue.func sig impl⟩ args).isSome = true ↔
      args.length ≠ sig.inTypes.length ∨
        ∃ pr ∈ args.zip sig.inTypes, kindOf pr.fst ≠ pr.snd.kind := by
  have hchk : JobFunc.check ⟨ReflectValue.func sig impl⟩ args =
      (if sig.inTypes.length ≠ args.length then
        some (GoErr.newErr "the number of args do not match the jobs args")
      else if (args.zip sig.inTypes).any (fun p => kindOf p.fst != p.snd.kind) then
        some (GoErr.newErr "the arg(s) types do not match job args types")
      else none) := by
    simp [JobFunc.check, hout, herr]
  rw [hchk]
  constructor
  · intro hfail
    by_cases h1 : sig.inTypes.length ≠ args.length
    · exact Or.inl (Ne.symm h1)
    · right
      rw [if_neg h1] at hfail
      by_cases h2 : (args.zip sig.inTypes).any (fun p => kindOf p.fst != p.snd.kind) = true
      · obtain ⟨pr, hmem, hne⟩ := List.any_eq_true.mp h2
        exact ⟨pr, hmem, bne_iff_ne.mp hne⟩
      · rw [if_neg h2] at hfail
        simp at hfail
  · intro hor
    rcases hor with hlen | ⟨pr, hmem, hne⟩
    · rw [if_pos (Ne.symm hlen)]
      rfl
    · by_cases h1 : sig.inTypes.length ≠ args.length
      · rw [if_pos h1]
        rfl
      · have h2 : ((args.zip sig.inTypes).any fun p => kindOf p.fst != p.snd.kind) = true :=
          List.any_eq_true.mpr ⟨pr, hmem, bne_iff_ne.mpr hne⟩
        rw [if_neg h1, if_pos h2]
        rfl

/-- C3 (witness): a function expecting one int-kind parameter, given one
string-kind argument — `check` fails. -/
theorem claim_C3_witness :
    (JobFunc.check
      ⟨ReflectValue.func ⟨[⟨Kind.int, false⟩], [⟨Kind.ptr, true⟩]⟩ (fun _ => Except.ok [])⟩
      [GoValue.vStr []]).isSome = true :=
  (claim_C3 ⟨[⟨Kind.int, false⟩], [⟨Kind.ptr, true⟩]⟩ (fun _ => Except.ok [])
      ⟨Kind.ptr, true⟩ rfl rfl [GoValue.vStr []]).mpr
    (Or.inr ⟨(GoValue.vStr [], ⟨Kind.int, false⟩), by decide, by decide⟩)

/-- C4: for every bound value that is not a function, or is a function not
declaring exactly one return value, or whose single return type does not
implement `error`, `check` fails for every argument list. -/
theorem claim_C4 (j : JobFunc) (args : List GoValue)
    (h : ∀ sig impl out0, j.jobFunc = ReflectValue.func sig impl →
      sig.outTypes = [out0] → out0.implementsErrorI = false) :
    (JobFunc.check j args).isSome = true := by
  obtain ⟨rv⟩ := j
  cases rv with
  | nonFunc v => rfl
  | func sig impl =>
    cases hout : sig.outTypes with
    | nil => simp [JobFunc.check, hout]
    | cons out0 tl =>
      cases tl with
      | nil =>
        have hf := h sig impl out0 rfl hout
        simp [JobFunc.check, hout, hf]
      | cons o2 tl2 => simp [JobFunc.check, hout]

/-- C4 (witness): a non-function bound value — `check` fails on the empty
argument list. -/
theorem claim_C4_witness :
    (JobFunc.check ⟨ReflectValue.nonFunc (GoValue.vInt 0)⟩ []).isSome = true :=
  claim_C4 ⟨ReflectValue.nonFunc (GoValue.vInt 0)⟩ []
    (fun _ _ _ hfn _ => ReflectValue.noConfusion hfn)

/-- C5: for a binding to a function with parameter count `n`, `execute` on a
params list of the wrong length returns the arity-mismatch error — the same
result for every callable body, so the callable is not invoked — and
`execute` on a correctly shaped params list whose callable returns a nil
error returns `nil` (no failure). -/
theorem claim_C5 (sig : FuncSig) (impl : List GoValue → Except GoPanic (List GoValue))
    (params : List GoValue) :
    (params.length ≠ sig.inTypes.length →
      JobFunc.execute ⟨ReflectValue.func sig impl⟩ params =
        Except.ok (some (GoErr.newErr "func parameters mismatch"))) ∧
    (params.length = sig.inTypes.length →
      (params.zip sig.inTypes).all (fun p => kindOf p.fst == p.snd.kind) = true →
      impl params = Except.ok [GoValue.vErr none] →
      JobFunc.execute ⟨ReflectValue.func sig impl⟩ params = Except.ok none) := by
  constructor
  · intro hne
    simp only [JobFunc.execute, JobFunc.paramsCount]
    rw [if_pos (Ne.symm hne)]
  · intro hlen hkinds himpl
    simp [JobFunc.execute, JobFunc.paramsCount, callValue, hlen, hkinds, himpl]

/-- C5 (witness): a binding to a two-parameter function
`func(a int, b string) error` returning nil: one argument gives the
parameter-mismatch error, the matching argument pair `(3, "x")` gives
`nil`. -/
theorem claim_C5_witness :
    JobFunc.execute
        ⟨ReflectValue.func ⟨[⟨Kind.int, false⟩, ⟨Kind.string, false⟩], [⟨Kind.ptr, true⟩]⟩
          (fun _ => Except.ok [GoValue.vErr none])⟩ [GoValue.vInt 3] =
      Except.ok (some (GoErr.newErr "func parameters mismatch")) ∧
    JobFunc.execute
        ⟨ReflectValue.func ⟨[⟨Kind.int, false⟩, ⟨Kind.string, false⟩], [⟨Kind.ptr, true⟩]⟩
          (fun _ => Except.ok [GoValue.vErr none])⟩ [GoValue.vInt 3, GoValue.vStr [120]] =
      Except.ok none :=
  ⟨(claim_C5 ⟨[⟨Kind.int, false⟩, ⟨Kind.string, false⟩], [⟨Kind.ptr, true⟩]⟩
      (fun _ => Except.ok [GoValue.vErr none]) [GoValue.vInt 3]).1 (by decide),
   (claim_C5 ⟨[⟨Kind.int, false⟩, ⟨Kind.string, false⟩], [⟨Kind.ptr, true⟩]⟩
      (fun _ => Except.ok [GoValue.vErr none]) [GoValue.vInt 3, GoValue.vStr [120]]).2
      (by decide) (by decide) rfl⟩

/-- C6: when the bound callable returns a non-nil error value `e` for the
supplied (correctly shaped) arguments, `execute` returns exactly that value
`e`, not a wrapped or substituted one. -/
theorem claim_C6 (sig : FuncSig) (impl : List GoValue → Except GoPanic (List GoValue))
    (params : List GoValue) (e : GoErr)
    (hlen : params.length = sig.inTypes.length)
    (hkinds : (params.zip sig.inTypes).all (fun p => kindOf p.fst == p.snd.kind) = true)
    (himpl : impl params = Except.ok [GoValue.vErr (some e)]) :
    JobFunc.execute ⟨ReflectValue.func sig impl⟩ params = Except.ok (some e) := by
  simp [JobFunc.execute, JobFunc.paramsCount, callValue, hlen, hkinds, himpl]

/-- C6 (witness): a nullary binding whose callable returns the distinct
error value `custom 42`; `execute` returns that same value. -/
theorem claim_C6_witness :
    JobFunc.execute
        ⟨ReflectValue.func ⟨[], [⟨Kind.ptr, true⟩]⟩
          (fun _ => Except.ok [GoValue.vErr (some (GoErr.custom 42))])⟩ [] =
      Except.ok (some (GoErr.custom 42)) :=
  claim_C6 ⟨[], [⟨Kind.ptr, true⟩]⟩ (fun _ => Except.ok [GoValue.vErr (some (GoErr.custom 42))])
    [] (GoErr.custom 42) (by decide) (by decide) rfl

/-- C7 (counterexample): `execute` contains no recover, so a panic raised by
the bound callable is NOT converted into an error result — at this concrete
binding whose callable panics, the result of `execute` is the escaping
panic itself, not an `InvocationError` return value. -/
theorem claim_C7_counterexample :
    JobFunc.execute
        ⟨ReflectValue.func ⟨[], [⟨Kind.ptr, true⟩]⟩
          (fun _ => Except.error (GoPanic.userPanic 7))⟩ [] =
      Except.error (GoPanic.userPanic 7) := rfl

/-- C7 (amended): if the bound callable panics during `execute`, the panic
propagates unchanged to the caller of `execute` — it is not swallowed — but
as a panic, not as an `InvocationError` result value. -/
theorem claim_C7 (sig : FuncSig) (impl : List GoValue → Except GoPanic (List GoValue))
    (params : List GoValue) (p : GoPanic)
    (hlen : params.length = sig.inTypes.length)
    (hkinds : (params.zip sig.inTypes).all (fun q => kindOf q.fst == q.snd.kind) = true)
    (himpl : impl params = Except.error p) :
    JobFunc.execute ⟨ReflectValue.func sig impl⟩ params = Except.error p := by
  simp [JobFunc.execute, JobFunc.paramsCount, callValue, hlen, hkinds, himpl]

/-- C7 (witness): a one-parameter binding whose callable panics with id 3;
the panic propagates out of `execute`. -/
theorem claim_C7_witness :
    JobFunc.execute
        ⟨ReflectValue.func ⟨[⟨Kind.int, false⟩], [⟨Kind.ptr, true⟩]⟩
          (fun _ => Except.error (GoPanic.userPanic 3))⟩ [GoValue.vInt 5] =
      Except.error (GoPanic.userPanic 3) :=
  claim_C7 ⟨[⟨Kind.int, false⟩], [⟨Kind.ptr, true⟩]⟩
    (fun _ => Except.error (GoPanic.userPanic 3)) [GoValue.vInt 5] (GoPanic.userPanic 3)
    (by decide) (by decide) rfl

/-- C9: `execute` performs no kind validation — for this binding expecting
one int-kind parameter and a params list of the correct length whose single
element has string kind, `execute` panics via `reflect.Value.Call` instead
of returning an error value. -/
theorem claim_C9 :
    JobFunc.paramsCount
        ⟨ReflectValue.func ⟨[⟨Kind.int, false⟩], [⟨Kind.ptr, true⟩]⟩
          (fun _ => Except.ok [GoValue.vErr none])⟩ =
      Except.ok (List.length [GoValue.vStr [104, 105]]) ∧
    JobFunc.execute
        ⟨ReflectValue.func ⟨[⟨Kind.int, false⟩], [⟨Kind.ptr, true⟩]⟩
          (fun _ => Except.ok [GoValue.vErr none])⟩ [GoValue.vStr [104, 105]] =
      Except.error GoPanic.callArgKindMismatch := by
  constructor <;> rfl

/-! ### Claim about the job descriptor configuration (C8) -/

/-- C8: each configuration call sets its field and returns the descriptor:
repeated calls to the same setter leave the field equal to the last
supplied value, each setter stores exactly the supplied value, and setters
for distinct fields commute, so the final descriptor state is
order-independent. -/
theorem claim_C8 (j : JobContainer) (t t' el el' tl tl' : Int) :
    ((j.RetryTimeout t).RetryTimeout t' = j.RetryTimeout t' ∧
      (j.RetryErrorLimit el).RetryErrorLimit el' = j.RetryErrorLimit el' ∧
      (j.RetryTimeoutLimit tl).RetryTimeoutLimit tl' = j.RetryTimeoutLimit tl') ∧
    ((j.RetryTimeout t).retryTimeout = t ∧
      (j.RetryErrorLimit el).retryOnErrorLimit = el ∧
      (j.RetryTimeoutLimit tl).retryOnTimeoutLimit = tl) ∧
    ((j.RetryTimeout t).RetryErrorLimit el = (j.RetryErrorLimit el).RetryTimeout t ∧
      (j.RetryTimeout t).RetryTimeoutLimit tl = (j.RetryTimeoutLimit tl).RetryTimeout t ∧
      (j.RetryErrorLimit el).RetryTimeoutLimit tl =
        (j.RetryTimeoutLimit tl).RetryErrorLimit el) := by
  exact ⟨⟨rfl, rfl, rfl⟩, ⟨rfl, rfl, rfl⟩, rfl, rfl, rfl⟩

end Jobsd
